import Mathlib

/-!
Verification of the declaration-binder / FFI layer of pychapel
(`module/pych/extern.py`), as a shallow embedding.

The embedding models:
1. the Python 2 type tags that appear in the source (`typemap` keys are the
   value `None` and the type objects `bool`, `int`, `long`, `float`, `str`,
   `unicode`);
2. the `Extern` call-descriptor record;
3. the `FromExtern` decorator: its application-time behavior
   (`FromExtern.__call__`, with signature inference by `inspect.getargspec`,
   the zero-argument call that extracts the return tag, `_validate_decl`,
   naming derivation, and the `hint` to the runtime singleton) and its
   call-time behavior (`wrapped_f`: `_type_check`, lazy materialization with
   caching of `efunc`, registration of ctypes marshaling, dispatch);
4. `os.path.basename` and `os.path.splitext` as used in the library-name
   derivation, following posixpath semantics.

Interactions with the out-of-scope runtime singleton (`hint`, `materialize`)
are modelled as events of a trace; `materialize` responses are supplied as
inputs to the call step (a mock runtime).
-/

/-- Python type objects that appear in this development (as `type(x)` results
and as type tags used in declarations). `pylist` stands for any type object
that is not a key of `typemap`. -/
inductive PyType where
  | pybool
  | pyint
  | pylong
  | pyfloat
  | pystr
  | pyunicode
  | pyNoneType
  | pylist
  | pycomplex
  deriving DecidableEq, Repr

/-- A type tag as used in declarations: either the value `None` or a type
object. The keys of `typemap` are tags. -/
inductive Tag where
  | tagNone
  | tagType (t : PyType)
  deriving DecidableEq, Repr

/-- ctypes marshaling types appearing as values of `typemap`. -/
inductive CType where
  | c_bool
  | c_int
  | c_long
  | c_double
  | c_char_p
  | c_wchar_p
  deriving DecidableEq, Repr

/-- The `typemap` dict of `extern.py`: `none` means the key is absent;
`some v` means the key is present with value `v` (the key `None` maps to the
value `None`, i.e. `some none`). -/
def typemap : Tag → Option (Option CType)
  | Tag.tagNone => some none
  | Tag.tagType PyType.pybool => some (some CType.c_bool)
  | Tag.tagType PyType.pyint => some (some CType.c_int)
  | Tag.tagType PyType.pylong => some (some CType.c_long)
  | Tag.tagType PyType.pyfloat => some (some CType.c_double)
  | Tag.tagType PyType.pystr => some (some CType.c_char_p)
  | Tag.tagType PyType.pyunicode => some (some CType.c_wchar_p)
  | _ => none

/-- Python `tag in typemap`. -/
def typemapMember (t : Tag) : Bool := (typemap t).isSome

/-- Python runtime values, carrying enough structure to have a runtime type. -/
inductive PyVal where
  | vbool (b : Bool)
  | vint (n : Int)
  | vlong (n : Int)
  | vfloat (payload : Int)
  | vstr (s : String)
  | vunicode (s : String)
  | vnone
  | vlist (l : List Int)
  deriving DecidableEq, Repr

/-- Python `type(x)`. -/
def type_of : PyVal → PyType
  | PyVal.vbool _ => PyType.pybool
  | PyVal.vint _ => PyType.pyint
  | PyVal.vlong _ => PyType.pylong
  | PyVal.vfloat _ => PyType.pyfloat
  | PyVal.vstr _ => PyType.pystr
  | PyVal.vunicode _ => PyType.pyunicode
  | PyVal.vnone => PyType.pyNoneType
  | PyVal.vlist _ => PyType.pylist

/-- Python 2 subclass relation on the modelled type objects: every type is a
subclass of itself, and `bool` is a subclass of `int`. -/
def isSubclass (s t : PyType) : Bool :=
  s = t || (s = PyType.pybool && t = PyType.pyint)

/-- A ctypes function handle as returned by the runtime's `materialize`:
opaque identity plus the marshaling attributes `argtypes` and `restype`
that `wrapped_f` assigns on first materialization. -/
structure Handle where
  id : Nat
  argtypes : List (Option CType) := []
  restype : Option CType := none
  deriving DecidableEq, Repr

/-- Python truthiness of an optional string (`None` and `""` are falsy). -/
def strTruthy : Option String → Bool
  | none => false
  | some s => s ≠ ""

/-- A host (Python) function as the binder sees it: its `__name__`, its
`__doc__`, its `inspect.getargspec` data (`args` the formal parameter names,
`defaults` the default values of the trailing parameters, read as type tags),
and the value its body returns. Calling it with zero arguments succeeds
exactly when every formal parameter has a default. -/
structure HostFunc where
  name : String
  doc : Option String := none
  args : List String := []
  defaults : List Tag := []
  body : Tag
  deriving DecidableEq, Repr

/-- Python exceptions raised by the modelled code. -/
inductive PyErr where
  | typeError (msg : String)
  | keyError
  | exc (msg : String)
  deriving DecidableEq, Repr

/-- The `Extern` descriptor record of `extern.py`. `rtype` starts as the
value `None`, i.e. `Tag.tagNone`. -/
structure Extern where
  pfunc : Option HostFunc := none
  pname : Option String := none
  doc : Option String := none
  atypes : List Tag := []
  anames : List String := []
  rtype : Tag := Tag.tagNone
  efunc : Option Handle := none
  ename : Option String := none
  elib : Option String := none
  sfile : Option String := none
  slang : Option String := none
  deriving DecidableEq, Repr

/-- The construction parameters of the `FromExtern` decorator. -/
structure FromExtern where
  ename : Option String := none
  elib : Option String := none
  sfile : Option String := none
  slang : Option String := none
  deriving DecidableEq, Repr

/-- `FromExtern.__init__`: the partially filled descriptor. -/
def initExtern (b : FromExtern) : Extern :=
  { pfunc := none, pname := none, doc := none, atypes := [], anames := [],
    rtype := Tag.tagNone, efunc := none,
    ename := b.ename, elib := b.elib, sfile := b.sfile, slang := b.slang }

/-- `FromC` fixes the source language tag to `"C"`. -/
def FromC (ename elib sfile : Option String) : FromExtern :=
  { ename := ename, elib := elib, sfile := sfile, slang := some "C" }

/-- `FromChapel` fixes the source language tag to `"Chapel"`. -/
def FromChapel (ename elib sfile : Option String) : FromExtern :=
  { ename := ename, elib := elib, sfile := sfile, slang := some "Chapel" }

/-- `FromExtern._validate_decl`: `TypeError` when the argument-type count
differs from the argument-name count, or when some declared argument type is
not a key of `typemap`. -/
def validate_decl (e : Extern) : Except PyErr Unit :=
  if e.atypes.length ≠ e.anames.length then
    Except.error (PyErr.typeError "Missing type declaration on arguments.")
  else if e.atypes.all typemapMember then
    Except.ok ()
  else
    Except.error (PyErr.typeError "Unsupported type for argument")

/-- The message of the `TypeError` raised by `_type_check`. -/
def typeMismatchMsg : String := "Unsupported arg-types"

/-- `FromExtern._type_check`: compare `[type(arg) for arg in args]` with the
declared `atypes` by list equality. -/
def type_check (e : Extern) (args : List PyVal) : Except PyErr Unit :=
  if args.map (fun a => Tag.tagType (type_of a)) = e.atypes then
    Except.ok ()
  else
    Except.error (PyErr.typeError typeMismatchMsg)

/-- `os.path.basename` for posix paths: the part after the last `/`. -/
def basenameChars (cs : List Char) : List Char :=
  cs.foldl (fun acc c => if c = '/' then [] else acc ++ [c]) []

/-- Index of the last `.` in a character list, if any. -/
def rfindDot : List Char → Option Nat
  | [] => none
  | c :: cs =>
    match rfindDot cs with
    | some i => some (i + 1)
    | none => if c = '.' then some 0 else none

/-- The root part of `os.path.splitext` (posixpath semantics): split at the
last `.` unless every character before it is a `.` (leading dots of a
basename do not start an extension). -/
def splitextRoot (cs : List Char) : List Char :=
  match rfindDot cs with
  | none => cs
  | some i => if (cs.take i).any (fun c => c ≠ '.') then cs.take i else cs

/-- `"lib%s.so" % os.path.splitext(os.path.basename(sfile))[0]`. -/
def derivedLib (sfile : String) : String :=
  "lib" ++ String.mk (splitextRoot (basenameChars sfile.toList)) ++ ".so"

/-- Interactions with the runtime singleton. -/
inductive Event where
  | hint
  | materialize
  deriving DecidableEq, Repr

/-- The descriptor right after signature inference in `FromExtern.__call__`:
record `pfunc`, `pname`, `doc`; read `getargspec` (`anames := args`;
`atypes := list(defaults)` when `defaults` is non-empty, which collapses to
`atypes := defaults` since `atypes` starts `[]`); `rtype := f()`. -/
def inferredExtern (b : FromExtern) (f : HostFunc) : Extern :=
  { initExtern b with
      pfunc := some f, pname := some f.name, doc := f.doc,
      anames := f.args, atypes := f.defaults, rtype := f.body }

/-- The two naming branches of `FromExtern.__call__`: first the `doc` (inline)
branch, then — independently, not as an `elif` — the `sfile` branch. -/
def namedExtern (e : Extern) : Extern :=
  let e1 : Extern :=
    if strTruthy e.doc then
      { e with ename := e.pname, elib := some "inline.so" }
    else e
  if strTruthy e1.sfile then
    { e1 with
        ename := if strTruthy e1.ename then e1.ename else e1.pname,
        elib := some (derivedLib (e1.sfile.getD "")) }
  else e1

/-- `FromExtern.__call__`, applied to a host function `f`.

Mirrors the source order: signature inference (`inferredExtern`; the
zero-argument call `f()` raises `TypeError` when some formal parameter lacks
a default, which happens before validation); `_validate_decl`; the naming
branches (`namedExtern`); `hint` the runtime; return the descriptor the
returned `wrapped_f` closes over.

Returns the trace of runtime interactions together with the outcome. -/
def externApply (b : FromExtern) (f : HostFunc) : List Event × Except PyErr Extern :=
  if f.defaults.length < f.args.length then
    ([], Except.error (PyErr.typeError "zero-argument call: not enough arguments"))
  else
    match validate_decl (inferredExtern b f) with
    | Except.error err => ([], Except.error err)
    | Except.ok _ => ([Event.hint], Except.ok (namedExtern (inferredExtern b f)))

/-- Outcome of one invocation of `wrapped_f`: the runtime interactions, the
result (`Except.ok h` means the native handle `h` was dispatched), and the
descriptor state after the call. -/
structure CallOutcome where
  events : List Event
  result : Except PyErr Handle
  ext : Extern
  deriving Repr

/-- `wrapped_f`, one invocation: `_type_check`; then, when no `efunc` is
cached, request `materialize` from the runtime (`mat` is the mock runtime's
response, `none` standing for a falsy return); on a falsy return raise
`Exception("Failed materializing function!")`; otherwise assign `argtypes`
and `restype` from `typemap` (a missing key raises `KeyError`) and cache the
handle; finally dispatch the (cached) handle. -/
def wrapped_f (ext : Extern) (args : List PyVal) (mat : Option Handle) : CallOutcome :=
  match type_check ext args with
  | Except.error err => { events := [], result := Except.error err, ext := ext }
  | Except.ok _ =>
    match ext.efunc with
    | some h => { events := [], result := Except.ok h, ext := ext }
    | none =>
      match mat with
      | none =>
        { events := [Event.materialize],
          result := Except.error (PyErr.exc "Failed materializing function!"),
          ext := ext }
      | some h =>
        match ext.atypes.mapM typemap with
        | none =>
          { events := [Event.materialize], result := Except.error PyErr.keyError,
            ext := ext }
        | some ats =>
          match typemap ext.rtype with
          | none =>
            { events := [Event.materialize], result := Except.error PyErr.keyError,
              ext := ext }
          | some rt =>
            let h2 : Handle := { h with argtypes := ats, restype := rt }
            { events := [Event.materialize], result := Except.ok h2,
              ext := { ext with efunc := some h2 } }

/-- Run a sequence of invocations on one descriptor; each list element is the
actual arguments together with the mock runtime's `materialize` response for
that call. Returns the final descriptor state and the number of calls in
which a materialization succeeded (the `efunc` cache went from absent to
present). -/
def runCalls : Extern → List (List PyVal × Option Handle) → Extern × Nat
  | ext, [] => (ext, 0)
  | ext, c :: rest =>
    let o := wrapped_f ext c.1 c.2
    let r := runCalls o.ext rest
    (r.1, (if ext.efunc.isNone && o.ext.efunc.isSome then 1 else 0) + r.2)

/-- `Except.isOk` as a plain Bool helper. -/
def exOk {ε α : Type} : Except ε α → Bool
  | Except.ok _ => true
  | Except.error _ => false

example : derivedLib "foo.chpl" = "libfoo.so" := by decide
example : derivedLib "/tmp/dir/add.c" = "libadd.so" := by decide
example : derivedLib ".bashrc" = "lib.bashrc.so" := by decide
example : typemapMember Tag.tagNone = true := by decide
example : typemapMember (Tag.tagType PyType.pylist) = false := by decide

/-! ### Helper lemmas about the naming derivation -/

theorem namedExtern_preserves (e : Extern) :
    (namedExtern e).atypes = e.atypes ∧ (namedExtern e).anames = e.anames ∧
    (namedExtern e).rtype = e.rtype ∧ (namedExtern e).efunc = e.efunc ∧
    (namedExtern e).pname = e.pname ∧ (namedExtern e).doc = e.doc ∧
    (namedExtern e).sfile = e.sfile ∧ (namedExtern e).slang = e.slang := by
  simp only [namedExtern]
  split <;> split <;> simp

theorem namedExtern_elib_sfile (e : Extern) (h : strTruthy e.sfile = true) :
    (namedExtern e).elib = some (derivedLib (e.sfile.getD "")) := by
  simp only [namedExtern]
  split <;> simp_all

theorem namedExtern_elib_inline (e : Extern) (hdoc : strTruthy e.doc = true)
    (hsf : strTruthy e.sfile = false) :
    (namedExtern e).elib = some "inline.so" := by
  simp only [namedExtern]
  split <;> simp_all

theorem namedExtern_ename_doc (e : Extern) (hdoc : strTruthy e.doc = true) :
    (namedExtern e).ename = e.pname := by
  simp only [namedExtern, hdoc]
  split <;> split <;> simp_all

/-! ### Helper lemmas about binder application -/

theorem externApply_ok_of (b : FromExtern) (f : HostFunc)
    (hlen : f.defaults.length = f.args.length)
    (hmem : f.defaults.all typemapMember = true) :
    externApply b f = ([Event.hint], Except.ok (namedExtern (inferredExtern b f))) := by
  have hv : validate_decl (inferredExtern b f) = Except.ok () := by
    unfold validate_decl inferredExtern
    simp [hlen, hmem]
  unfold externApply
  rw [if_neg (by omega), hv]

theorem externApply_ok_inv (b : FromExtern) (f : HostFunc) (e : Extern)
    (h : (externApply b f).2 = Except.ok e) :
    e = namedExtern (inferredExtern b f) := by
  unfold externApply at h
  by_cases hlt : f.defaults.length < f.args.length
  · rw [if_pos hlt] at h
    simp at h
  · rw [if_neg hlt] at h
    cases hv : validate_decl (inferredExtern b f) with
    | error err => rw [hv] at h; simp at h
    | ok u => rw [hv] at h; simp at h; exact h.symm

theorem externApply_err_iff (b : FromExtern) (f : HostFunc) :
    exOk (externApply b f).2 = false ↔
      (f.defaults.length ≠ f.args.length ∨ f.defaults.all typemapMember = false) := by
  by_cases hlt : f.defaults.length < f.args.length
  · unfold externApply
    rw [if_pos hlt]
    simp [exOk]
    omega
  · by_cases hlen : f.defaults.length = f.args.length
    · by_cases hmem : f.defaults.all typemapMember = true
      · rw [externApply_ok_of b f hlen hmem]
        simp [exOk, hlen, hmem]
      · have hv : validate_decl (inferredExtern b f) =
            Except.error (PyErr.typeError "Unsupported type for argument") := by
          unfold validate_decl inferredExtern
          simp [hlen]
          simp at hmem
          exact hmem
        unfold externApply
        rw [if_neg hlt, hv]
        simp [exOk]
        simp at hmem
        exact Or.inr hmem
    · have hv : validate_decl (inferredExtern b f) =
          Except.error (PyErr.typeError "Missing type declaration on arguments.") := by
        unfold validate_decl inferredExtern
        simp [hlen]
      unfold externApply
      rw [if_neg hlt, hv]
      simp [exOk]
      omega

theorem externApply_err_events (b : FromExtern) (f : HostFunc)
    (h : exOk (externApply b f).2 = false) :
    (externApply b f).1 = [] := by
  unfold externApply at h ⊢
  by_cases hlt : f.defaults.length < f.args.length
  · rw [if_pos hlt]
  · rw [if_neg hlt] at h ⊢
    cases hv : validate_decl (inferredExtern b f) with
    | error err => rfl
    | ok u => rw [hv] at h; simp [exOk] at h

/-! ### Helper lemmas about the wrapped callable -/

theorem wrapped_f_cached (ext : Extern) (args : List PyVal) (mat : Option Handle)
    (h : Handle) (hc : ext.efunc = some h) :
    (wrapped_f ext args mat).events = [] ∧ (wrapped_f ext args mat).ext = ext := by
  unfold wrapped_f
  cases ht : type_check ext args with
  | error err => exact ⟨rfl, rfl⟩
  | ok u => rw [hc]; exact ⟨rfl, rfl⟩

theorem wrapped_f_mismatch (ext : Extern) (args : List PyVal) (mat : Option Handle)
    (hne : args.map (fun a => Tag.tagType (type_of a)) ≠ ext.atypes) :
    wrapped_f ext args mat =
      { events := [], result := Except.error (PyErr.typeError typeMismatchMsg),
        ext := ext } := by
  have ht : type_check ext args = Except.error (PyErr.typeError typeMismatchMsg) := by
    unfold type_check
    rw [if_neg hne]
  unfold wrapped_f
  rw [ht]

theorem wrapped_f_no_mat_failure (ext : Extern) (args : List PyVal)
    (hc : ext.efunc = none) :
    (wrapped_f ext args none).ext.efunc = none := by
  unfold wrapped_f
  cases ht : type_check ext args with
  | error err => exact hc
  | ok u => rw [hc]; exact hc

theorem wrapped_f_requests (ext : Extern) (args : List PyVal) (mat : Option Handle)
    (hc : ext.efunc = none) (ht : type_check ext args = Except.ok ()) :
    (wrapped_f ext args mat).events = [Event.materialize] := by
  unfold wrapped_f
  rw [ht, hc]
  cases mat with
  | none => rfl
  | some h =>
    cases hm : ext.atypes.mapM typemap with
    | none => rfl
    | some ats =>
      cases hr : typemap ext.rtype with
      | none => rfl
      | some rt => rfl

theorem runCalls_cached (calls : List (List PyVal × Option Handle)) :
    ∀ ext h, ext.efunc = some h → (runCalls ext calls).2 = 0 := by
  induction calls with
  | nil => intro ext h hc; rfl
  | cons c rest ih =>
    intro ext h hc
    have hext : (wrapped_f ext c.1 c.2).ext = ext := (wrapped_f_cached ext c.1 c.2 h hc).2
    simp only [runCalls, hext]
    rw [ih ext h hc, hc]
    simp

theorem runCalls_succ_le_one (calls : List (List PyVal × Option Handle)) :
    ∀ ext, (runCalls ext calls).2 ≤ 1 := by
  induction calls with
  | nil => intro ext; simp [runCalls]
  | cons c rest ih =>
    intro ext
    simp only [runCalls]
    cases he : (wrapped_f ext c.1 c.2).ext.efunc with
    | none =>
      simpa using ih (wrapped_f ext c.1 c.2).ext
    | some h =>
      have h0 : (runCalls (wrapped_f ext c.1 c.2).ext rest).2 = 0 :=
        runCalls_cached rest _ h he
      rw [h0]
      split <;> simp

/-! ### Concrete fixtures -/

/-- The empty binder, `FromExtern()`. -/
def b0 : FromExtern := {}

/-- The spec's concrete scenario binder: a C binder with `sfile="add.c"`. -/
def bAdd : FromExtern := FromC none none (some "add.c")

/-- `def add(a=int, b=int): return int`, no doc string. -/
def fAdd : HostFunc :=
  { name := "add", doc := none, args := ["a", "b"],
    defaults := [Tag.tagType PyType.pyint, Tag.tagType PyType.pyint],
    body := Tag.tagType PyType.pyint }

/-- A parameterless host function carrying a doc string (inline source). -/
def fInline : HostFunc :=
  { name := "fun1", doc := some "inline external source",
    body := Tag.tagType PyType.pyint }

/-- A host function whose zero-argument call yields the type `list`, which is
not a key of `typemap`. -/
def f6 : HostFunc := { name := "f", body := Tag.tagType PyType.pylist }

/-- A host function declaring the value `None` as its argument type. -/
def f7 : HostFunc :=
  { name := "g", args := ["a"], defaults := [Tag.tagNone],
    body := Tag.tagType PyType.pyint }

/-- A binder carrying an explicit external symbol name. -/
def b8 : FromExtern := { ename := some "custom" }

/-- A host function with a doc string, bound through `b8`. -/
def f8 : HostFunc :=
  { name := "f", doc := some "inline external source",
    body := Tag.tagType PyType.pyint }

/-- A Chapel binder with a source file. -/
def b9 : FromExtern := FromChapel none none (some "foo.chpl")

/-- A host function with a doc string, bound through `b9` (doc and source
file both present). -/
def f9 : HostFunc :=
  { name := "h", doc := some "inline external source",
    body := Tag.tagType PyType.pyint }

/-- A host function with one parameter and no default (missing type
declaration). -/
def fMissing : HostFunc := { name := "m", args := ["a"], body := Tag.tagType PyType.pyint }

/-- A sample native handle. -/
def h1 : Handle := { id := 1 }

/-- A descriptor with a cached native handle and no declared arguments. -/
def extCached : Extern := { efunc := some h1 }

/-- A descriptor with no cached handle and no declared arguments. -/
def extEmpty : Extern := {}

/-- A descriptor declaring a single `int` argument, no cached handle. -/
def extInt : Extern := { atypes := [Tag.tagType PyType.pyint] }

example : (namedExtern (inferredExtern bAdd fAdd)).elib = some "libadd.so" := by decide
example : (namedExtern (inferredExtern bAdd fAdd)).ename = some "add" := by decide

/-! ### Claim theorems -/

/-- C1: for every host function with N formal parameters, each carrying a
type-tag default value (a Type Map key), whose body called with zero
arguments returns a type tag, applying the binder produces a descriptor whose
`anames` has length N and lists the parameter names in declaration order,
whose `atypes` equals the list of the N default values in order, and whose
`rtype` equals the result of the zero-argument call. -/
theorem C1_signature_inference (b : FromExtern) (f : HostFunc)
    (hlen : f.defaults.length = f.args.length)
    (hmem : f.defaults.all typemapMember = true) :
    ∃ e : Extern, (externApply b f).2 = Except.ok e ∧
      e.anames.length = f.args.length ∧ e.anames = f.args ∧
      e.atypes = f.defaults ∧ e.rtype = f.body := by
  refine ⟨namedExtern (inferredExtern b f), ?_, ?_, ?_, ?_, ?_⟩
  · rw [externApply_ok_of b f hlen hmem]
  · rw [(namedExtern_preserves (inferredExtern b f)).2.1]
    rfl
  · rw [(namedExtern_preserves (inferredExtern b f)).2.1]
    rfl
  · exact (namedExtern_preserves (inferredExtern b f)).1
  · exact (namedExtern_preserves (inferredExtern b f)).2.2.1

/-- Witness for C1 at the spec's concrete scenario `add(a=int, b=int)`. -/
theorem C1_signature_inference_witness :
    ∃ e : Extern, (externApply bAdd fAdd).2 = Except.ok e ∧
      e.anames.length = fAdd.args.length ∧ e.anames = fAdd.args ∧
      e.atypes = fAdd.defaults ∧ e.rtype = fAdd.body :=
  C1_signature_inference bAdd fAdd (by decide) (by decide)

/-- C2: the native handle is absent immediately after binding; a call finding
a cached handle requests no materialization and leaves the descriptor
unchanged; across any sequence of calls on one descriptor at most one
materialization succeeds; after a failed materialization the handle remains
absent; and every call that passes the type check while no handle is cached
issues exactly one materialization request. -/
theorem C2_lazy_materialization :
    (∀ b f e, (externApply b f).2 = Except.ok e → e.efunc = none) ∧
    (∀ ext args mat h, ext.efunc = some h →
      (wrapped_f ext args mat).events = [] ∧ (wrapped_f ext args mat).ext = ext) ∧
    (∀ ext calls, (runCalls ext calls).2 ≤ 1) ∧
    (∀ ext args, ext.efunc = none → (wrapped_f ext args none).ext.efunc = none) ∧
    (∀ ext args mat, ext.efunc = none → type_check ext args = Except.ok () →
      (wrapped_f ext args mat).events = [Event.materialize]) := by
  refine ⟨?_, ?_, ?_, ?_, ?_⟩
  · intro b f e h
    rw [externApply_ok_inv b f e h]
    exact (namedExtern_preserves (inferredExtern b f)).2.2.2.1
  · exact fun ext args mat h hc => wrapped_f_cached ext args mat h hc
  · exact fun ext calls => runCalls_succ_le_one calls ext
  · exact fun ext args hc => wrapped_f_no_mat_failure ext args hc
  · exact fun ext args mat hc ht => wrapped_f_requests ext args mat hc ht

/-- Witness for C2 at concrete descriptors and a two-call sequence. -/
theorem C2_lazy_materialization_witness :
    (namedExtern (inferredExtern bAdd fAdd)).efunc = none ∧
    ((wrapped_f extCached [] none).events = [] ∧
      (wrapped_f extCached [] none).ext = extCached) ∧
    (runCalls extEmpty [([], some h1), ([], some h1)]).2 ≤ 1 ∧
    (wrapped_f extEmpty [] none).ext.efunc = none ∧
    (wrapped_f extEmpty [] (some h1)).events = [Event.materialize] :=
  ⟨C2_lazy_materialization.1 bAdd fAdd _ rfl,
   C2_lazy_materialization.2.1 extCached [] none h1 rfl,
   C2_lazy_materialization.2.2.1 extEmpty [([], some h1), ([], some h1)],
   C2_lazy_materialization.2.2.2.1 extEmpty [] rfl,
   C2_lazy_materialization.2.2.2.2 extEmpty [] (some h1) rfl rfl⟩

/-- C3: for every bound function and argument tuple whose runtime types
differ from the declared argument types in length or in any positional
element, the call raises the type-mismatch `TypeError`, the runtime's
`materialize` is never invoked, and the descriptor state is unchanged. -/
theorem C3_type_mismatch (ext : Extern) (args : List PyVal) (mat : Option Handle)
    (h : args.length ≠ ext.atypes.length ∨
      ∃ (i : Nat) (s t : Tag),
        (args.map (fun a => Tag.tagType (type_of a)))[i]? = some s ∧
        ext.atypes[i]? = some t ∧ s ≠ t) :
    wrapped_f ext args mat =
      { events := [], result := Except.error (PyErr.typeError typeMismatchMsg),
        ext := ext } := by
  apply wrapped_f_mismatch
  rcases h with h | ⟨i, s, t, h1, h2, h3⟩
  · intro he
    exact h (by rw [← he, List.length_map])
  · intro he
    rw [he] at h1
    exact h3 (Option.some.inj (h1.symm.trans h2))

/-- Witness for C3: a string passed where `int` is declared. -/
theorem C3_type_mismatch_witness :
    wrapped_f extInt [PyVal.vstr "x"] none =
      { events := [], result := Except.error (PyErr.typeError typeMismatchMsg),
        ext := extInt } :=
  C3_type_mismatch extInt [PyVal.vstr "x"] none
    (Or.inr ⟨0, Tag.tagType PyType.pystr, Tag.tagType PyType.pyint, rfl, rfl, by decide⟩)

/-- C4: applying the binder raises a bind-time `TypeError` (the spec's
`DeclarationError`) iff the inferred argument-name count differs from the
inferred argument-type count or some inferred argument type is not a Type
Map key; when it raises, no runtime interaction (no hint, no materialize)
has occurred. -/
theorem C4_declaration_error (b : FromExtern) (f : HostFunc) :
    (exOk (externApply b f).2 = false ↔
      (f.defaults.length ≠ f.args.length ∨ f.defaults.all typemapMember = false)) ∧
    (exOk (externApply b f).2 = false → (externApply b f).1 = []) :=
  ⟨externApply_err_iff b f, externApply_err_events b f⟩

/-- Witness for C4: a parameter with no type-tag default. -/
theorem C4_declaration_error_witness :
    exOk (externApply b0 fMissing).2 = false ∧ (externApply b0 fMissing).1 = [] :=
  ⟨(C4_declaration_error b0 fMissing).1.mpr (Or.inl (by decide)),
   (C4_declaration_error b0 fMissing).2 (by decide)⟩

/-- C5: with a source file and no explicit library name, the derived `elib`
is `lib` ++ basename-without-extension ++ `.so`; with a doc string and no
source file, `elib` is the fixed inline-library name `inline.so`. -/
theorem C5_library_naming (b : FromExtern) (f : HostFunc) (e : Extern) :
    ((externApply b f).2 = Except.ok e → ∀ s : String, b.sfile = some s → s ≠ "" →
      b.elib = none →
      e.elib = some ("lib" ++ String.mk (splitextRoot (basenameChars s.toList)) ++ ".so")) ∧
    ((externApply b f).2 = Except.ok e → strTruthy f.doc = true →
      strTruthy b.sfile = false → e.elib = some "inline.so") := by
  constructor
  · intro hok s hs hne _
    rw [externApply_ok_inv b f e hok]
    have hsf : strTruthy (inferredExtern b f).sfile = true := by
      show strTruthy b.sfile = true
      rw [hs]
      exact decide_eq_true hne
    rw [namedExtern_elib_sfile _ hsf]
    show some (derivedLib (b.sfile.getD "")) = _
    rw [hs]
    rfl
  · intro hok hdoc hsf
    rw [externApply_ok_inv b f e hok]
    exact namedExtern_elib_inline (inferredExtern b f) hdoc hsf

/-- Witness for C5: `add.c` yields `libadd.so`; inline doc yields
`inline.so`. -/
theorem C5_library_naming_witness :
    (namedExtern (inferredExtern bAdd fAdd)).elib =
      some ("lib" ++ String.mk (splitextRoot (basenameChars "add.c".toList)) ++ ".so") ∧
    (namedExtern (inferredExtern b0 fInline)).elib = some "inline.so" :=
  ⟨(C5_library_naming bAdd fAdd _).1 rfl "add.c" rfl (by decide) rfl,
   (C5_library_naming b0 fInline _).2 rfl (by decide) rfl⟩

/-- C6 counterexample: the binder accepts `f6`, whose zero-argument call
yields the type `list` — not a Type Map key — so binding is not rejected and
the produced descriptor's `rtype` lies outside the Type Map's key set,
contrary to the claim. -/
theorem C6_counterexample :
    (externApply b0 f6).2.map (fun e => typemapMember e.rtype) = Except.ok false := rfl

/-- C6 (amended): bind-time validation checks only the argument types — the
binder accepts a host function iff the argument-name and argument-type
counts match and every argument type is a Type Map key, independently of the
zero-argument result; the descriptor's `rtype` is that result, unchecked for
Type Map membership. -/
theorem C6_return_type_unchecked :
    (∀ b f, exOk (externApply b f).2 = true ↔
      (f.defaults.length = f.args.length ∧ f.defaults.all typemapMember = true)) ∧
    (∀ b f e, (externApply b f).2 = Except.ok e → e.rtype = f.body) := by
  constructor
  · intro b f
    by_cases hlen : f.defaults.length = f.args.length
    · by_cases hmem : f.defaults.all typemapMember = true
      · rw [externApply_ok_of b f hlen hmem]
        simp [exOk, hlen, hmem]
      · have hf : exOk (externApply b f).2 = false :=
          (externApply_err_iff b f).mpr (Or.inr (by simpa using hmem))
        rw [hf]
        simp [hlen, hmem]
    · have hf : exOk (externApply b f).2 = false :=
        (externApply_err_iff b f).mpr (Or.inl hlen)
      rw [hf]
      simp [hlen]
  · intro b f e h
    rw [externApply_ok_inv b f e h]
    exact (namedExtern_preserves (inferredExtern b f)).2.2.1

/-- Witness for C6 (amended): the binder accepts `f6` and its descriptor's
`rtype` is the zero-argument result (the type `list`). -/
theorem C6_return_type_unchecked_witness :
    exOk (externApply b0 f6).2 = true ∧
    (namedExtern (inferredExtern b0 f6)).rtype = f6.body :=
  ⟨(C6_return_type_unchecked.1 b0 f6).mpr ⟨rfl, rfl⟩,
   C6_return_type_unchecked.2 b0 f6 _ rfl⟩

/-- C7 counterexample: the binder accepts `f7`, which declares the value
`None` as an argument type (it is a `typemap` key), so the "no value" tag is
not rejected for arguments, contrary to the claim. -/
theorem C7_counterexample :
    (externApply b0 f7).2.map (fun e => e.atypes) = Except.ok [Tag.tagNone] := rfl

/-- C7 (amended): the "no value" tag is a member of the Type Map's key set
and is therefore accepted as an argument type at bind time: a function all
of whose declared argument types are the `None` tag binds successfully, with
`atypes` listing those tags. -/
theorem C7_none_tag_admitted :
    typemapMember Tag.tagNone = true ∧
    (∀ b f, f.defaults.length = f.args.length →
      f.defaults.all (fun t => t == Tag.tagNone) = true →
      (externApply b f).2 = Except.ok (namedExtern (inferredExtern b f)) ∧
      (namedExtern (inferredExtern b f)).atypes = f.defaults) := by
  refine ⟨rfl, ?_⟩
  intro b f hlen hall
  have hmem : f.defaults.all typemapMember = true := by
    rw [List.all_eq_true] at hall ⊢
    intro t ht
    have h := hall t ht
    simp at h
    rw [h]
    rfl
  exact ⟨by rw [externApply_ok_of b f hlen hmem],
    (namedExtern_preserves (inferredExtern b f)).1⟩

/-- Witness for C7 (amended) at `f7`. -/
theorem C7_none_tag_admitted_witness :
    (externApply b0 f7).2 = Except.ok (namedExtern (inferredExtern b0 f7)) ∧
    (namedExtern (inferredExtern b0 f7)).atypes = f7.defaults :=
  C7_none_tag_admitted.2 b0 f7 rfl (by decide)

/-- C8 counterexample: binding with the explicit symbol name `"custom"` a
function carrying a doc string yields `ename = "f"` (the function's own
name): the explicitly supplied name is not preserved, contrary to the
claim. -/
theorem C8_counterexample :
    (externApply b8 f8).2.map (fun e => e.ename) = Except.ok (some "f") ∧
    b8.ename = some "custom" := ⟨rfl, rfl⟩

/-- C8 (amended): for every binding of a host function carrying a (non-empty)
documentation string, the external symbol name is set to the host function's
own name unconditionally, overwriting any explicitly supplied external
symbol name. -/
theorem C8_inline_sets_ename (b : FromExtern) (f : HostFunc) (e : Extern)
    (hdoc : strTruthy f.doc = true)
    (hok : (externApply b f).2 = Except.ok e) :
    e.ename = some f.name := by
  rw [externApply_ok_inv b f e hok]
  rw [namedExtern_ename_doc (inferredExtern b f) hdoc]
  rfl

/-- Witness for C8 (amended) at `b8`, `f8`. -/
theorem C8_inline_sets_ename_witness :
    (namedExtern (inferredExtern b8 f8)).ename = some f8.name :=
  C8_inline_sets_ename b8 f8 _ (by decide) rfl

/-- C9 counterexample: with a doc string and `sfile = "foo.chpl"` both
present, the resulting `elib` is `"libfoo.so"`, not the inline identifier
`"inline.so"`: the inline branch does not take precedence, contrary to the
claim. -/
theorem C9_counterexample :
    (externApply b9 f9).2.map (fun e => e.elib) = Except.ok (some "libfoo.so") ∧
    some "libfoo.so" ≠ some "inline.so" := ⟨rfl, by decide⟩

/-- C9 (amended): when both a documentation string and a source file are
supplied, the source-file branch runs after the inline branch (two
independent `if` statements, not `if`/`elif`): the resulting `elib` is
derived from the source file's base name, overwriting the inline identifier,
while `ename` is still set to the function's own name. -/
theorem C9_sfile_overrides_inline (b : FromExtern) (f : HostFunc) (e : Extern)
    (hdoc : strTruthy f.doc = true) (hsf : strTruthy b.sfile = true)
    (hok : (externApply b f).2 = Except.ok e) :
    e.elib = some (derivedLib (b.sfile.getD "")) ∧ e.ename = some f.name := by
  rw [externApply_ok_inv b f e hok]
  constructor
  · exact namedExtern_elib_sfile (inferredExtern b f) hsf
  · rw [namedExtern_ename_doc (inferredExtern b f) hdoc]
    rfl

/-- Witness for C9 (amended) at `b9`, `f9`. -/
theorem C9_sfile_overrides_inline_witness :
    (namedExtern (inferredExtern b9 f9)).elib = some (derivedLib (b9.sfile.getD "")) ∧
    (namedExtern (inferredExtern b9 f9)).ename = some f9.name :=
  C9_sfile_overrides_inline b9 f9 _ (by decide) (by decide) rfl

/-- C10: the call-time type check uses exact runtime-type equality, not
subtype compatibility: an actual argument whose runtime type is a strict
subclass of the declared type tag (e.g. `bool` where `int` is declared)
raises the type-mismatch error, with no materialization and no state
change. -/
theorem C10_exact_type_check (ext : Extern) (args : List PyVal) (mat : Option Handle)
    (i : Nat) (s t : PyType)
    (hdecl : ext.atypes[i]? = some (Tag.tagType t))
    (hact : (args.map type_of)[i]? = some s)
    (_hsub : isSubclass s t = true) (hne : s ≠ t) :
    wrapped_f ext args mat =
      { events := [], result := Except.error (PyErr.typeError typeMismatchMsg),
        ext := ext } := by
  apply wrapped_f_mismatch
  intro he
  have hact2 : (args.map (fun a => Tag.tagType (type_of a)))[i]? = some (Tag.tagType s) := by
    rw [List.getElem?_map] at hact ⊢
    cases hg : args[i]? with
    | none => rw [hg] at hact; simp at hact
    | some a =>
      rw [hg] at hact
      simp at hact
      simp [hact]
  rw [he] at hact2
  exact hne (Tag.tagType.inj (Option.some.inj (hact2.symm.trans hdecl)))

/-- Witness for C10: `True` (type `bool`) passed where `int` is declared. -/
theorem C10_exact_type_check_witness :
    wrapped_f extInt [PyVal.vbool true] none =
      { events := [], result := Except.error (PyErr.typeError typeMismatchMsg),
        ext := extInt } :=
  C10_exact_type_check extInt [PyVal.vbool true] none 0 PyType.pybool PyType.pyint
    rfl rfl (by decide) (by decide)
